import Mathlib

/-!
Verification of the NetMonitor measurement core against its specification.

The embedding follows `src/netmonitor/src/app/services/monitor.service.ts`
(`MonitorService`: `startMonitoring`, `stopMonitoring`, `measureLatency`,
`measureWebLatency`), the persistence repository `PingRepository.savePing`,
and the settings model (`MonitoringConfig`).  Latencies are rationals
(TypeScript `number`s in the test suite are exact decimals), timestamps are
epoch milliseconds as naturals.  The RxJS polling pipeline
(`timer(0, interval)` + `switchMap` + subscription handles) is modelled as a
state machine driven by explicit events; an RxJS subscription is identified
by a generation number, and an emission of an unsubscribed timer delivers
nothing, which models `Subscription.unsubscribe`.
-/

namespace NetMonitor

/-- `PingResult.status` in `ping-result.interface.ts`: the union `'ok' | 'error'`. -/
inductive PingStatus where
  | ok : PingStatus
  | error : PingStatus
deriving DecidableEq, Repr

/-- `PingResult` from `ping-result.interface.ts`: `timestamp: Date` (epoch ms),
`latencyMs: number | null`, `status: 'ok' | 'error'`. -/
structure PingResult where
  timestamp : Nat
  latencyMs : Option ℚ
  status : PingStatus
deriving DecidableEq, Repr

/-- `MonitoringConfig` from `settings.interface.ts`: `pingTarget: string`,
`pingInterval: number` (seconds). -/
structure MonitoringConfig where
  pingTarget : String
  pingInterval : Nat
deriving DecidableEq, Repr

/-- The kinds of transport failure a probe can hit (timeout, DNS failure,
connection refused, permission error, anything else thrown). -/
inductive TransportError where
  | timeout : TransportError
  | dnsFailure : TransportError
  | connectionRefused : TransportError
  | permissionError : TransportError
  | other : TransportError
deriving DecidableEq, Repr

/-- The environment of one probe invocation: which platform branch
`measureLatency` takes (`isTauri`), the Tauri backend's response or error,
the web request's completion or error, and the two `Date.now()` readings of
`measureWebLatency`. -/
structure ProbeEnv where
  isTauri : Bool
  tauriOutcome : Except TransportError ℚ
  webRequestOutcome : Except TransportError Unit
  startTime : Nat
  endTime : Nat
deriving Repr

/-- `MonitorService.measureWebLatency`: records `start = Date.now()`, awaits the
HEAD request, and on success returns `latencyMs = end - start, status: 'ok'`;
on failure it logs and rethrows (the rethrown error is the `Except.error`). -/
def measureWebLatency (e : ProbeEnv) (ts : Nat) : Except TransportError PingResult :=
  match e.webRequestOutcome with
  | Except.ok _ =>
      Except.ok { timestamp := ts
                  latencyMs := some ((e.endTime : ℚ) - (e.startTime : ℚ))
                  status := PingStatus.ok }
  | Except.error err => Except.error err

/-- `MonitorService.measureLatency`: on Tauri, maps the backend's `latency_ms`
to an `ok` result and any rejection to `latencyMs: null, status: 'error'`
via `catchError`; otherwise wraps `measureWebLatency` with the same
`catchError`.  Total: every transport failure becomes an error `PingResult`,
nothing propagates. -/
def measureLatency (e : ProbeEnv) (ts : Nat) : PingResult :=
  if e.isTauri then
    match e.tauriOutcome with
    | Except.ok l =>
        { timestamp := ts, latencyMs := some l, status := PingStatus.ok }
    | Except.error _ =>
        { timestamp := ts, latencyMs := none, status := PingStatus.error }
  else
    match measureWebLatency e ts with
    | Except.ok r => r
    | Except.error _ =>
        { timestamp := ts, latencyMs := none, status := PingStatus.error }

/-- JavaScript `list.slice(-n)`: the last `n` elements (the whole list when it
is shorter than `n`). -/
def sliceLast (n : Nat) (l : List α) : List α :=
  l.drop (l.length - n)

/-- The history update in `startMonitoring`'s subscribe handler:
`[...current, result].slice(-50)`. -/
def pushResult (rs : List PingResult) (r : PingResult) : List PingResult :=
  sliceLast 50 (rs ++ [r])

/-- The history contents after pushing a whole sequence of measurements into an
initially empty `_results$`. -/
def histRun (ms : List PingResult) : List PingResult :=
  ms.foldl pushResult []

theorem sliceLast_length (n : Nat) (l : List α) :
    (sliceLast n l).length = min n l.length := by
  simp [sliceLast]
  omega

theorem sliceLast_of_le {n : Nat} {l : List α} (h : l.length ≤ n) :
    sliceLast n l = l := by
  simp [sliceLast, Nat.sub_eq_zero_of_le h]

theorem sliceLast_append_sliceLast (n : Nat) (l l2 : List α) :
    sliceLast n (sliceLast n l ++ l2) = sliceLast n (l ++ l2) := by
  rcases le_or_lt l.length n with h | h
  · rw [sliceLast_of_le h]
  · unfold sliceLast
    rw [List.drop_append_eq_append_drop, List.drop_append_eq_append_drop,
      List.drop_drop]
    have hlen : (l.drop (l.length - n)).length = n := by
      simp
      omega
    rw [hlen]
    congr 1
    · congr 1
      simp
      omega
    · congr 1
      simp
      omega

theorem foldl_pushResult (ms : List PingResult) :
    ∀ init : List PingResult, init.length ≤ 50 →
      ms.foldl pushResult init = sliceLast 50 (init ++ ms) := by
  induction ms with
  | nil =>
      intro init h
      simpa using (sliceLast_of_le h).symm
  | cons m ms ih =>
      intro init h
      have hlen : (pushResult init m).length ≤ 50 := by
        simp [pushResult, sliceLast_length]
      calc (m :: ms).foldl pushResult init
      _ = ms.foldl pushResult (pushResult init m) := rfl
      _ = sliceLast 50 (pushResult init m ++ ms) := ih _ hlen
      _ = sliceLast 50 ((init ++ [m]) ++ ms) := by
            rw [pushResult, sliceLast_append_sliceLast]
      _ = sliceLast 50 (init ++ m :: ms) := by simp

theorem histRun_eq (ms : List PingResult) :
    histRun ms = sliceLast 50 ms := by
  simpa using foldl_pushResult ms [] (by simp)

/-- **C1** — Pushing any sequence of measurements into the results history
(capacity 50, via `[...current, result].slice(-50)`) leaves a list of length
`min 50 N` (hence never more than 50) that is exactly the suffix of the
most-recently-pushed measurements in push order: the oldest entries are the
ones evicted. -/
theorem results_history_bounded_fifo (ms : List PingResult) :
    (histRun ms).length ≤ 50 ∧
    (histRun ms).length = min 50 ms.length ∧
    histRun ms = ms.drop (ms.length - 50) := by
  refine ⟨?_, ?_, ?_⟩
  · rw [histRun_eq, sliceLast_length]
    omega
  · rw [histRun_eq, sliceLast_length]
  · rw [histRun_eq, sliceLast]

/-- **C3** — `measureLatency` is a total function into `PingResult` (nothing
throws or propagates: both platform branches end in `catchError`).  Every
result satisfies `latencyMs` present iff `status = 'ok'`, and every transport
failure — on the Tauri branch or the web branch — is mapped to
`status: 'error', latencyMs: null`. -/
theorem probe_never_throws_latency_iff_ok (e : ProbeEnv) (ts : Nat) :
    ((measureLatency e ts).latencyMs.isSome ↔
      (measureLatency e ts).status = PingStatus.ok) ∧
    (∀ err : TransportError, e.isTauri = true → e.tauriOutcome = Except.error err →
      measureLatency e ts
        = { timestamp := ts, latencyMs := none, status := PingStatus.error }) ∧
    (∀ err : TransportError, e.isTauri = false → e.webRequestOutcome = Except.error err →
      measureLatency e ts
        = { timestamp := ts, latencyMs := none, status := PingStatus.error }) := by
  rcases e with ⟨it, t1, w1, st, et⟩
  cases it <;> cases t1 <;> cases w1 <;>
    simp [measureLatency, measureWebLatency]

/-- A Tauri-branch probe whose backend call rejects with a timeout. -/
def envTauriTimeout : ProbeEnv :=
  { isTauri := true
    tauriOutcome := Except.error TransportError.timeout
    webRequestOutcome := Except.ok ()
    startTime := 0
    endTime := 0 }

theorem probe_never_throws_witness :
    measureLatency envTauriTimeout 5
      = { timestamp := 5, latencyMs := none, status := PingStatus.error } :=
  (probe_never_throws_latency_iff_ok envTauriTimeout 5).2.1 TransportError.timeout rfl rfl

/-- Modelled from the spec: the Statistics Engine lives in `home.page.ts`,
which is not among the provided sources (only its test suite is).  Following
§4.4, the statistics are computed over the latencies of the `Ok` measurements
of the history, in time order; `Failed` entries are skipped. -/
def okLatencies (rs : List PingResult) : List ℚ :=
  rs.filterMap fun r =>
    match r.status, r.latencyMs with
    | PingStatus.ok, some l => some l
    | _, _ => none

/-- Modelled from the spec (§4.4, `home.page.ts` absent from the sources): the
RFC 1889 running jitter fold — given the previous latency and the running
value `J`, each further latency `l` contributes `J := J + (|l - prev| - J) / 16`. -/
def jitterFrom (prev J : ℚ) : List ℚ → ℚ
  | [] => J
  | l :: ls => jitterFrom l (J + (|l - prev| - J) / 16) ls

/-- Modelled from the spec (§4.4): jitter starts at `J = 0` before the first
difference; the result on fewer than two latencies is `0`. -/
def jitterOf : List ℚ → ℚ
  | [] => 0
  | l :: ls => jitterFrom l 0 ls

/-- Modelled from the spec (§4.4): the jitter statistic of a history is the
RFC 1889 estimate over its `Ok` latencies in time order. -/
def statsJitter (rs : List PingResult) : ℚ :=
  jitterOf (okLatencies rs)

/-- **C2** — the jitter statistic is the RFC 1889 running estimate over the
`Ok` latencies in time order (`statsJitter` folds
`J := J + (|L[i] - L[i-1]| - J) / 16` from `J = 0` over the `Ok`
subsequence), so the history with `Ok` latencies `[10, 20, 30]` reports
jitter `1.2109375`, and the history `[10, 20, 10]` reports the same value:
the estimate depends on consecutive absolute differences, not on the
aggregate. -/
theorem jitter_reference_cases :
    statsJitter [⟨0, some 10, PingStatus.ok⟩, ⟨1, some 20, PingStatus.ok⟩,
                 ⟨2, some 30, PingStatus.ok⟩] = 1.2109375 ∧
    statsJitter [⟨0, some 10, PingStatus.ok⟩, ⟨1, some 20, PingStatus.ok⟩,
                 ⟨2, some 10, PingStatus.ok⟩] = 1.2109375 := by
  constructor <;>
    norm_num [statsJitter, okLatencies, jitterOf, jitterFrom,
      List.filterMap_cons, List.filterMap_nil, abs_sub_comm]

/-- A storage backend failure (`db.execute` rejecting). -/
inductive DbError where
  | failure : DbError
deriving DecidableEq, Repr

/-- The database environment seen by one `savePing` call: whether
`DatabaseService.isInitialized`, and whether the `INSERT` resolves or rejects. -/
structure DbEnv where
  isInitialized : Bool
  execOutcome : Except DbError Unit
deriving Repr

/-- One row of the `pings` table: the parameter tuple of
`INSERT INTO pings (timestamp, latency_ms, success, target)`. -/
structure DbRow where
  timestamp : Nat
  latency_ms : Option ℚ
  success : Nat
  target : String
deriving DecidableEq, Repr

/-- What a `savePing` call did: skipped (database not initialized), wrote a
row, or caught a storage error and logged it.  In every case it returns
normally — the constructor set has no raised-error case. -/
inductive SaveResult where
  | skipped : SaveResult
  | written : DbRow → SaveResult
  | failedLogged : SaveResult
deriving DecidableEq, Repr

/-- The row `PingRepository.savePing` binds:
`[result.timestamp.getTime(), result.latencyMs, result.status === 'ok' ? 1 : 0, target]`. -/
def pingRow (result : PingResult) (target : String) : DbRow :=
  { timestamp := result.timestamp
    latency_ms := result.latencyMs
    success := if result.status = PingStatus.ok then 1 else 0
    target := target }

/-- `PingRepository.savePing`: returns early when the database is not
initialized; otherwise inserts the row; a rejection of `db.execute` is caught
and logged (`catch ... console.error`), never rethrown — the function is total. -/
def savePing (db : DbEnv) (result : PingResult) (target : String) : SaveResult :=
  if db.isInitialized = false then SaveResult.skipped
  else
    match db.execOutcome with
    | Except.ok _ => SaveResult.written (pingRow result target)
    | Except.error _ => SaveResult.failedLogged

/-- The argument pair of one `savePing` invocation. -/
structure SaveCall where
  result : PingResult
  target : String
deriving DecidableEq, Repr

/-- The observable state of a `MonitorService` instance:
`pollingSubscription` holds the generation number of the live RxJS
subscription (`none` = unsubscribed/idle), `nextSubId` the next fresh
generation, `interval` the resolved polling interval of the current run,
`results` the `_results$` value, `isMonitoring` the `_isMonitoring$` value.
`pubLog` records every raw measurement delivered to the subscribe handler (in
delivery order), `probeCalls` the target passed to each probe invocation,
`saveCalls` the argument pairs of each `savePing` call, and `dbWrites` the
rows the storage actually received. -/
structure ServiceState where
  pollingSubscription : Option Nat
  nextSubId : Nat
  interval : Nat
  results : List PingResult
  isMonitoring : Bool
  pubLog : List PingResult
  probeCalls : List String
  saveCalls : List SaveCall
  dbWrites : List DbRow
deriving Repr

/-- The events driving the service: `start` carries the optional explicit
interval and the configuration read at start time; `tick` is one emission of
the `timer(0, interval)` pipeline carrying the generation of the subscription
that scheduled it, the configuration as read at probe time and again at save
time (the probe awaits in between, and `this.pingTarget` re-reads the live
settings on each evaluation), the probe environment, the `Date` timestamp and
the database environment of the tick's `savePing`. -/
inductive Event where
  | start : Option Nat → MonitoringConfig → Event
  | stop : Event
  | tick : Nat → MonitoringConfig → MonitoringConfig → ProbeEnv → Nat → DbEnv → Event

/-- `MonitorService.stopMonitoring`: unsubscribes and nulls the subscription
when one is present, then publishes `isMonitoring = false`. -/
def stopMonitoring (s : ServiceState) : ServiceState :=
  let s1 := if s.pollingSubscription.isSome
            then { s with pollingSubscription := none } else s
  { s1 with isMonitoring := false }

/-- The interval resolution in `startMonitoring`:
`intervalMs ?? this.pingIntervalMs` where `pingIntervalMs` is
`pingInterval * 1000` from the live settings. -/
def resolveInterval (intervalMs : Option Nat) (cfg : MonitoringConfig) : Nat :=
  intervalMs.getD (cfg.pingInterval * 1000)

/-- `MonitorService.startMonitoring`: first `stopMonitoring()` (never two
subscriptions), publish `isMonitoring = true`, resolve the interval, and
subscribe a fresh `timer(0, interval)` pipeline (a fresh generation number). -/
def startMonitoring (s : ServiceState) (intervalMs : Option Nat)
    (cfg : MonitoringConfig) : ServiceState :=
  let s1 := stopMonitoring s
  let s2 := { s1 with isMonitoring := true }
  { s2 with interval := resolveInterval intervalMs cfg
            pollingSubscription := some s2.nextSubId
            nextSubId := s2.nextSubId + 1 }

/-- The subscribe handler of one delivered tick: build the measurement, push
it into the 50-bounded history, publish, and fire `savePing` with the
measurement and the target re-read at save time.  The published history does
not depend on the database outcome. -/
def applyTick (s : ServiceState) (cfgAtProbe cfgAtSave : MonitoringConfig)
    (probe : ProbeEnv) (ts : Nat) (db : DbEnv) : ServiceState :=
  let r := measureLatency probe ts
  { s with results := pushResult s.results r
           pubLog := s.pubLog ++ [r]
           probeCalls := s.probeCalls ++ [cfgAtProbe.pingTarget]
           saveCalls := s.saveCalls ++ [{ result := r, target := cfgAtSave.pingTarget }]
           dbWrites := s.dbWrites ++
             (match savePing db r cfgAtSave.pingTarget with
              | SaveResult.written row => [row]
              | _ => []) }

/-- One event of the service.  A `tick` is delivered only when its
subscription generation is the live one — an emission belonging to an
unsubscribed pipeline delivers nothing (RxJS `unsubscribe`). -/
def step (s : ServiceState) : Event → ServiceState
  | Event.start intervalMs cfg => startMonitoring s intervalMs cfg
  | Event.stop => stopMonitoring s
  | Event.tick j cfgP cfgS probe ts db =>
      if s.pollingSubscription = some j then applyTick s cfgP cfgS probe ts db
      else s

/-- Run a sequence of events. -/
def run (s : ServiceState) (evs : List Event) : ServiceState :=
  evs.foldl step s

/-- A fresh `MonitorService`: no subscription, `_results$` starts at `[]`,
`_isMonitoring$` at `false`. -/
def initState : ServiceState :=
  { pollingSubscription := none
    nextSubId := 0
    interval := 0
    results := []
    isMonitoring := false
    pubLog := []
    probeCalls := []
    saveCalls := []
    dbWrites := [] }

/-- The emission times of RxJS `timer(0, i)` that fall strictly before `T`
milliseconds: `0, i, 2i, …`. -/
def tickTimes (i T : Nat) : List Nat :=
  (List.range ((T + i - 1) / i)).map (· * i)

/-- Whether the probe environment makes the taken branch fail (the Tauri
backend rejects, or the web request throws). -/
def probeFails (e : ProbeEnv) : Bool :=
  if e.isTauri then
    match e.tauriOutcome with
    | Except.error _ => true
    | Except.ok _ => false
  else
    match e.webRequestOutcome with
    | Except.error _ => true
    | Except.ok _ => false

theorem measureLatency_of_fails {e : ProbeEnv} (hf : probeFails e = true) (ts : Nat) :
    measureLatency e ts
      = { timestamp := ts, latencyMs := none, status := PingStatus.error } := by
  rcases e with ⟨it, t1, w1, st, et⟩
  cases it <;> cases t1 <;> cases w1 <;>
    simp_all [probeFails, measureLatency, measureWebLatency]

theorem measureLatency_status_of_ok {e : ProbeEnv} (hf : probeFails e = false) (ts : Nat) :
    (measureLatency e ts).status = PingStatus.ok := by
  rcases e with ⟨it, t1, w1, st, et⟩
  cases it <;> cases t1 <;> cases w1 <;>
    simp_all [probeFails, measureLatency, measureWebLatency]

theorem applyTick_pollingSubscription (s : ServiceState)
    (cfgP cfgS : MonitoringConfig) (e : ProbeEnv) (ts : Nat) (db : DbEnv) :
    (applyTick s cfgP cfgS e ts db).pollingSubscription = s.pollingSubscription := rfl

theorem step_tick_of_live {s : ServiceState} {j : Nat}
    (h : s.pollingSubscription = some j) (cfgP cfgS : MonitoringConfig)
    (e : ProbeEnv) (ts : Nat) (db : DbEnv) :
    step s (Event.tick j cfgP cfgS e ts db) = applyTick s cfgP cfgS e ts db := by
  simp [step, h]

/-- **C4** — probe failures never halt the loop: from a running state, a run
of three failing ticks followed by a succeeding one delivers exactly four
measurements, in order, the first three `Failed` and the last `Ok`, and the
subscription is still the same live one afterwards (nothing but an explicit
`stop` tears it down). -/
theorem probe_failures_never_halt_loop (s : ServiceState) (j : Nat)
    (h : s.pollingSubscription = some j)
    (c1 c2 c3 c4 d1 d2 d3 d4 : MonitoringConfig)
    (e1 e2 e3 e4 : ProbeEnv) (t1 t2 t3 t4 : Nat) (b1 b2 b3 b4 : DbEnv)
    (hf1 : probeFails e1 = true) (hf2 : probeFails e2 = true)
    (hf3 : probeFails e3 = true) (hf4 : probeFails e4 = false) :
    (run s [Event.tick j c1 d1 e1 t1 b1, Event.tick j c2 d2 e2 t2 b2,
            Event.tick j c3 d3 e3 t3 b3, Event.tick j c4 d4 e4 t4 b4]).pubLog
      = s.pubLog ++ [measureLatency e1 t1, measureLatency e2 t2,
                     measureLatency e3 t3, measureLatency e4 t4] ∧
    (run s [Event.tick j c1 d1 e1 t1 b1, Event.tick j c2 d2 e2 t2 b2,
            Event.tick j c3 d3 e3 t3 b3, Event.tick j c4 d4 e4 t4 b4]).pubLog.length
      = s.pubLog.length + 4 ∧
    (measureLatency e1 t1).status = PingStatus.error ∧
    (measureLatency e2 t2).status = PingStatus.error ∧
    (measureLatency e3 t3).status = PingStatus.error ∧
    (measureLatency e4 t4).status = PingStatus.ok ∧
    (run s [Event.tick j c1 d1 e1 t1 b1, Event.tick j c2 d2 e2 t2 b2,
            Event.tick j c3 d3 e3 t3 b3, Event.tick j c4 d4 e4 t4 b4]).pollingSubscription
      = some j := by
  have hrun : run s [Event.tick j c1 d1 e1 t1 b1, Event.tick j c2 d2 e2 t2 b2,
      Event.tick j c3 d3 e3 t3 b3, Event.tick j c4 d4 e4 t4 b4]
      = applyTick (applyTick (applyTick (applyTick s c1 d1 e1 t1 b1)
          c2 d2 e2 t2 b2) c3 d3 e3 t3 b3) c4 d4 e4 t4 b4 := by
    simp [run, step, applyTick, h]
  refine ⟨?_, ?_, ?_, ?_, ?_, ?_, ?_⟩
  · rw [hrun]
    simp [applyTick]
  · rw [hrun]
    simp [applyTick]
  · rw [measureLatency_of_fails hf1]
  · rw [measureLatency_of_fails hf2]
  · rw [measureLatency_of_fails hf3]
  · exact measureLatency_status_of_ok hf4 t4
  · rw [hrun]
    simp [applyTick, h]

/-- The default configuration (`DEFAULT_SETTINGS.monitoringConfig`). -/
def cfgDefault : MonitoringConfig :=
  { pingTarget := "8.8.8.8", pingInterval := 5 }

/-- A Tauri-branch probe whose backend resolves with `latency_ms = 42`. -/
def envTauriOk : ProbeEnv :=
  { isTauri := true
    tauriOutcome := Except.ok 42
    webRequestOutcome := Except.ok ()
    startTime := 0
    endTime := 0 }

/-- A healthy database environment. -/
def dbOk : DbEnv :=
  { isInitialized := true, execOutcome := Except.ok () }

/-- A running state: a fresh service after one `startMonitoring(1000)`. -/
def runningState : ServiceState :=
  step initState (Event.start (some 1000) cfgDefault)

theorem probe_failures_never_halt_loop_witness :
    (run runningState
        [Event.tick 0 cfgDefault cfgDefault envTauriTimeout 1 dbOk,
         Event.tick 0 cfgDefault cfgDefault envTauriTimeout 2 dbOk,
         Event.tick 0 cfgDefault cfgDefault envTauriTimeout 3 dbOk,
         Event.tick 0 cfgDefault cfgDefault envTauriOk 4 dbOk]).pubLog
      = runningState.pubLog ++
        [measureLatency envTauriTimeout 1, measureLatency envTauriTimeout 2,
         measureLatency envTauriTimeout 3, measureLatency envTauriOk 4] ∧
    (measureLatency envTauriOk 4).status = PingStatus.ok :=
  ⟨(probe_failures_never_halt_loop runningState 0 rfl
      cfgDefault cfgDefault cfgDefault cfgDefault
      cfgDefault cfgDefault cfgDefault cfgDefault
      envTauriTimeout envTauriTimeout envTauriTimeout envTauriOk
      1 2 3 4 dbOk dbOk dbOk dbOk rfl rfl rfl rfl).1,
   (probe_failures_never_halt_loop runningState 0 rfl
      cfgDefault cfgDefault cfgDefault cfgDefault
      cfgDefault cfgDefault cfgDefault cfgDefault
      envTauriTimeout envTauriTimeout envTauriTimeout envTauriOk
      1 2 3 4 dbOk dbOk dbOk dbOk rfl rfl rfl rfl).2.2.2.2.2.1⟩

/-- Whether an event is a timer emission. -/
def isTick : Event → Bool
  | Event.tick _ _ _ _ _ _ => true
  | _ => false

theorem run_ticks_of_unsubscribed {s : ServiceState}
    (hs : s.pollingSubscription = none) :
    ∀ evs : List Event, (∀ e ∈ evs, isTick e = true) → run s evs = s := by
  intro evs
  induction evs with
  | nil => intro _; rfl
  | cons e evs ih =>
      intro hall
      have he : isTick e = true := hall e (List.mem_cons_self e evs)
      have hstep : step s e = s := by
        cases e with
        | start _ _ => simp [isTick] at he
        | stop => simp [isTick] at he
        | tick j cP cS pe ts db => simp [step, hs]
      have : run s (e :: evs) = run (step s e) evs := rfl
      rw [this, hstep]
      exact ih fun x hx => hall x (List.mem_cons_of_mem e hx)

/-- **C5** — after `stopMonitoring` returns, the subscription is gone and no
later timer emission delivers anything: over any further sequence of tick
events the state — in particular the published results — is unchanged; and
`stopMonitoring` on an idle service is a no-op. -/
theorem stop_halts_all_publication (s : ServiceState) :
    (step s Event.stop).pollingSubscription = none ∧
    (step s Event.stop).isMonitoring = false ∧
    (∀ evs : List Event, (∀ e ∈ evs, isTick e = true) →
       run (step s Event.stop) evs = step s Event.stop) ∧
    (∀ evs : List Event, (∀ e ∈ evs, isTick e = true) →
       (run (step s Event.stop) evs).results = (step s Event.stop).results) ∧
    (s.pollingSubscription = none → s.isMonitoring = false →
       step s Event.stop = s) := by
  have hsub : (step s Event.stop).pollingSubscription = none := by
    rcases s with ⟨sub, n, i, r, m, p, pc, sc, dw⟩
    cases sub <;> simp [step, stopMonitoring]
  refine ⟨hsub, ?_, ?_, ?_, ?_⟩
  · rcases s with ⟨sub, n, i, r, m, p, pc, sc, dw⟩
    cases sub <;> simp [step, stopMonitoring]
  · exact run_ticks_of_unsubscribed hsub
  · intro evs hall
    rw [run_ticks_of_unsubscribed hsub evs hall]
  · intro h1 h2
    rcases s with ⟨sub, n, i, r, m, p, pc, sc, dw⟩
    cases sub with
    | none => simp at h2; simp [step, stopMonitoring, h2]
    | some j => simp at h1

theorem stop_halts_all_publication_witness :
    (step runningState Event.stop).pollingSubscription = none ∧
    run (step runningState Event.stop)
        [Event.tick 0 cfgDefault cfgDefault envTauriOk 9 dbOk,
         Event.tick 0 cfgDefault cfgDefault envTauriOk 10 dbOk]
      = step runningState Event.stop ∧
    step initState Event.stop = initState :=
  ⟨(stop_halts_all_publication runningState).1,
   (stop_halts_all_publication runningState).2.2.1
      [Event.tick 0 cfgDefault cfgDefault envTauriOk 9 dbOk,
       Event.tick 0 cfgDefault cfgDefault envTauriOk 10 dbOk]
      (by
        intro e he
        simp only [List.mem_cons, List.not_mem_nil, or_false] at he
        rcases he with rfl | rfl <;> rfl),
   (stop_halts_all_publication initState).2.2.2.2 rfl rfl⟩

/-- Generation numbers of live subscriptions are always below the fresh
counter.  This holds for every reachable state (see `subIdBound_initState`
and `subIdBound_step`). -/
def subIdBound (s : ServiceState) : Prop :=
  ∀ j : Nat, s.pollingSubscription = some j → j < s.nextSubId

theorem subIdBound_initState : subIdBound initState := by
  intro j h
  simp [initState] at h

theorem applyTick_nextSubId (s : ServiceState)
    (cfgP cfgS : MonitoringConfig) (e : ProbeEnv) (ts : Nat) (db : DbEnv) :
    (applyTick s cfgP cfgS e ts db).nextSubId = s.nextSubId := rfl

theorem subIdBound_step {s : ServiceState} (hb : subIdBound s) (e : Event) :
    subIdBound (step s e) := by
  cases e with
  | start intervalMs cfg =>
      intro j h
      rcases s with ⟨sub, n, i, r, m, p, pc, sc, dw⟩
      cases sub <;>
        simp [step, startMonitoring, stopMonitoring, resolveInterval] at h ⊢ <;>
        omega
  | stop =>
      intro j h
      rcases s with ⟨sub, n, i, r, m, p, pc, sc, dw⟩
      cases sub <;> simp [step, stopMonitoring] at h
  | tick k cP cS pe ts db =>
      intro j h
      by_cases hl : s.pollingSubscription = some k
      · rw [step_tick_of_live hl] at h ⊢
        rw [applyTick_pollingSubscription] at h
        rw [applyTick_nextSubId]
        exact hb j h
      · simp only [step, if_neg hl] at h ⊢
        exact hb j h

/-- **C6** — `startMonitoring` while already running first tears the prior
loop down: the new state's only live subscription is the fresh generation,
the prior generation is a different one, and every emission still carrying
the prior generation delivers nothing in the new state — no tick of the old
loop is ever observed next to the new loop's. -/
theorem restart_tears_down_prior_loop (s : ServiceState) (hb : subIdBound s)
    (j : Nat) (hj : s.pollingSubscription = some j)
    (o : Option Nat) (cfg : MonitoringConfig) :
    (step s (Event.start o cfg)).pollingSubscription = some s.nextSubId ∧
    j ≠ s.nextSubId ∧
    (∀ cP cS e ts d, step (step s (Event.start o cfg)) (Event.tick j cP cS e ts d)
        = step s (Event.start o cfg)) ∧
    (step s (Event.start o cfg)).isMonitoring = true := by
  have hlt : j < s.nextSubId := hb j hj
  have hsub : (step s (Event.start o cfg)).pollingSubscription = some s.nextSubId := by
    rcases s with ⟨sub, n, i, r, m, p, pc, sc, dw⟩
    cases sub <;> simp [step, startMonitoring, stopMonitoring]
  refine ⟨hsub, by omega, ?_, ?_⟩
  · intro cP cS e ts d
    have hsub2 : (startMonitoring s o cfg).pollingSubscription = some s.nextSubId := hsub
    have hne : (startMonitoring s o cfg).pollingSubscription ≠ some j := by
      rw [hsub2]
      intro hc
      have := Option.some.inj hc
      omega
    simp [step, hne]
  · rcases s with ⟨sub, n, i, r, m, p, pc, sc, dw⟩
    cases sub <;> simp [step, startMonitoring, stopMonitoring]

theorem restart_tears_down_prior_loop_witness :
    (step runningState (Event.start none cfgDefault)).pollingSubscription
      = some runningState.nextSubId ∧
    step (step runningState (Event.start none cfgDefault))
        (Event.tick 0 cfgDefault cfgDefault envTauriOk 3 dbOk)
      = step runningState (Event.start none cfgDefault) :=
  ⟨(restart_tears_down_prior_loop runningState
      (subIdBound_step subIdBound_initState _) 0 rfl none cfgDefault).1,
   (restart_tears_down_prior_loop runningState
      (subIdBound_step subIdBound_initState _) 0 rfl none cfgDefault).2.2.1
      cfgDefault cfgDefault envTauriOk 3 dbOk⟩

/-- **C7** — the polling interval resolves to the explicit override when one
is given and to `pingInterval × 1000` otherwise, and the timer model fires at
`t = 0, interval, 2·interval, …`: within a run of `T` ms the emissions are
exactly the multiples of the interval below `T` — with interval 1000 and a
run of 2500 ms, exactly the three ticks `[0, 1000, 2000]`. -/
theorem interval_resolution_and_tick_schedule :
    (∀ (s : ServiceState) (ms : Nat) (cfg : MonitoringConfig),
        (step s (Event.start (some ms) cfg)).interval = ms) ∧
    (∀ (s : ServiceState) (cfg : MonitoringConfig),
        (step s (Event.start none cfg)).interval = cfg.pingInterval * 1000) ∧
    (∀ i T t : Nat, 0 < i → (t ∈ tickTimes i T ↔ ∃ k, t = k * i ∧ t < T)) ∧
    tickTimes 1000 2500 = [0, 1000, 2000] ∧
    (tickTimes 1000 2500).length = 3 := by
  refine ⟨?_, ?_, ?_, by decide, by decide⟩
  · intro s ms cfg
    rcases s with ⟨sub, n, i, r, m, p, pc, sc, dw⟩
    cases sub <;>
      simp [step, startMonitoring, stopMonitoring, resolveInterval]
  · intro s cfg
    rcases s with ⟨sub, n, i, r, m, p, pc, sc, dw⟩
    cases sub <;>
      simp [step, startMonitoring, stopMonitoring, resolveInterval]
  · intro i T t hi
    have key : ∀ k : Nat, k < (T + i - 1) / i ↔ k * i < T := by
      intro k
      rw [Nat.lt_iff_add_one_le, Nat.le_div_iff_mul_le hi]
      have h1 : (k + 1) * i = k * i + i := by ring
      omega
    constructor
    · intro ht
      rcases List.mem_map.mp ht with ⟨k, hk, rfl⟩
      exact ⟨k, rfl, (key k).mp (List.mem_range.mp hk)⟩
    · rintro ⟨k, rfl, hlt⟩
      exact List.mem_map.mpr ⟨k, List.mem_range.mpr ((key k).mpr hlt), rfl⟩

theorem interval_resolution_witness :
    (step initState (Event.start (some 777) cfgDefault)).interval = 777 ∧
    (0 ∈ tickTimes 1000 2500 ↔ ∃ k, 0 = k * 1000 ∧ 0 < 2500) :=
  ⟨interval_resolution_and_tick_schedule.1 initState 777 cfgDefault,
   interval_resolution_and_tick_schedule.2.2.1 1000 2500 0 (by decide)⟩

/-- The state with the persistence log forgotten: everything the scheduler
and its subscribers can observe. -/
def stripDb (s : ServiceState) : ServiceState :=
  { s with dbWrites := [] }

/-- Replace the database environment of a tick event (other events carry
none). -/
def setDb (db : DbEnv) : Event → Event
  | Event.tick j cP cS e ts _ => Event.tick j cP cS e ts db
  | e => e

/-- A storage backend whose every write rejects. -/
def failingDb : DbEnv :=
  { isInitialized := true, execOutcome := Except.error DbError.failure }

theorem stripDb_step_setDb {s1 s2 : ServiceState} (h : stripDb s1 = stripDb s2)
    (db1 db2 : DbEnv) (e : Event) :
    stripDb (step s1 (setDb db1 e)) = stripDb (step s2 (setDb db2 e)) := by
  rcases s1 with ⟨sub, n, i, r, m, p, pc, sc, dw1⟩
  rcases s2 with ⟨sub2, n2, i2, r2, m2, p2, pc2, sc2, dw2⟩
  simp only [stripDb, ServiceState.mk.injEq, and_true] at h
  obtain ⟨h1, h2, h3, h4, h5, h6, h7, h8⟩ := h
  subst h1; subst h2; subst h3; subst h4
  subst h5; subst h6; subst h7; subst h8
  cases e with
  | start o cfg =>
      cases sub <;> simp [setDb, step, startMonitoring, stopMonitoring, stripDb]
  | stop =>
      cases sub <;> simp [setDb, step, stopMonitoring, stripDb]
  | tick j cP cS pe ts db =>
      by_cases hc : sub = some j
      · simp [setDb, step, hc, applyTick, stripDb]
      · simp [setDb, step, hc, stripDb]

theorem run_setDb_stripDb (evs : List Event) :
    ∀ s1 s2 : ServiceState, stripDb s1 = stripDb s2 → ∀ db1 db2 : DbEnv,
      stripDb (run s1 (evs.map (setDb db1)))
        = stripDb (run s2 (evs.map (setDb db2))) := by
  induction evs with
  | nil => intro s1 s2 h db1 db2; exact h
  | cons e evs ih =>
      intro s1 s2 h db1 db2
      exact ih _ _ (stripDb_step_setDb h db1 db2 e) db1 db2

/-- **C8** — a persistence backend whose every write rejects is invisible to
subscribers: `savePing` against it returns normally having caught and logged
the storage error, and any run driven with the all-failing backend publishes
exactly the same results list, measurement log, probe calls and `savePing`
calls as the same run driven with any other backend — monitoring continues
uninterrupted. -/
theorem persistence_failure_invisible (s : ServiceState) (evs : List Event)
    (db : DbEnv) :
    (∀ (r : PingResult) (t : String),
        savePing failingDb r t = SaveResult.failedLogged) ∧
    (run s (evs.map (setDb failingDb))).results
      = (run s (evs.map (setDb db))).results ∧
    (run s (evs.map (setDb failingDb))).pubLog
      = (run s (evs.map (setDb db))).pubLog ∧
    (run s (evs.map (setDb failingDb))).saveCalls
      = (run s (evs.map (setDb db))).saveCalls := by
  have h := run_setDb_stripDb evs s s rfl failingDb db
  refine ⟨fun r t => rfl, ?_, ?_, ?_⟩
  · have h2 := congrArg ServiceState.results h
    simpa [stripDb] using h2
  · have h2 := congrArg ServiceState.pubLog h
    simpa [stripDb] using h2
  · have h2 := congrArg ServiceState.saveCalls h
    simpa [stripDb] using h2

/-- A second configuration, differing from the default in its target. -/
def cfgAlt : MonitoringConfig :=
  { pingTarget := "1.1.1.1", pingInterval := 5 }

/-- **C9 counterexample** — the subscribe handler re-evaluates the
`pingTarget` getter when it calls `savePing`, after the probe has completed;
if the configured target changes while the probe is in flight, `savePing`
receives the new target, not the one the probe was invoked with: here the
probe went to `8.8.8.8` but the row is saved against `1.1.1.1`. -/
theorem savePing_target_not_probe_target :
    (step runningState
        (Event.tick 0 cfgDefault cfgAlt envTauriOk 7 dbOk)).probeCalls
      = ["8.8.8.8"] ∧
    ((step runningState
        (Event.tick 0 cfgDefault cfgAlt envTauriOk 7 dbOk)).saveCalls.map
          SaveCall.target)
      = ["1.1.1.1"] ∧
    (step runningState
        (Event.tick 0 cfgDefault cfgAlt envTauriOk 7 dbOk)).probeCalls
      ≠ ((step runningState
          (Event.tick 0 cfgDefault cfgAlt envTauriOk 7 dbOk)).saveCalls.map
            SaveCall.target) := by
  refine ⟨?_, ?_, ?_⟩ <;>
    simp [runningState, initState, step, startMonitoring, stopMonitoring,
      resolveInterval, applyTick, cfgDefault, cfgAlt]

/-- **C9 amended** — on each delivered tick the Measurement Strategy is
invoked against the target read fresh from the configuration at that tick
(never cached at start), and the Persistence Repository is called with the
tick's measurement and the target read fresh again at save time; the two
targets coincide whenever the configuration does not change during the
probe. -/
theorem tick_fresh_target_probe_and_save (s : ServiceState) (j : Nat)
    (h : s.pollingSubscription = some j) (cfg : MonitoringConfig)
    (e : ProbeEnv) (ts : Nat) (d : DbEnv) :
    (step s (Event.tick j cfg cfg e ts d)).probeCalls
      = s.probeCalls ++ [cfg.pingTarget] ∧
    (step s (Event.tick j cfg cfg e ts d)).saveCalls
      = s.saveCalls ++ [{ result := measureLatency e ts
                          target := cfg.pingTarget }] := by
  rw [step_tick_of_live h]
  exact ⟨rfl, rfl⟩

theorem tick_fresh_target_witness :
    (step runningState
        (Event.tick 0 cfgAlt cfgAlt envTauriOk 7 dbOk)).probeCalls
      = runningState.probeCalls ++ ["1.1.1.1"] ∧
    (step runningState
        (Event.tick 0 cfgAlt cfgAlt envTauriOk 7 dbOk)).saveCalls
      = runningState.saveCalls ++
          [{ result := measureLatency envTauriOk 7, target := "1.1.1.1" }] :=
  tick_fresh_target_probe_and_save runningState 0 rfl cfgAlt envTauriOk 7 dbOk

theorem stopMonitoring_results (s : ServiceState) :
    (stopMonitoring s).results = s.results := by
  rcases s with ⟨sub, n, i, r, m, p, pc, sc, dw⟩
  cases sub <;> simp [stopMonitoring]

theorem stopMonitoring_nextSubId (s : ServiceState) :
    (stopMonitoring s).nextSubId = s.nextSubId := by
  rcases s with ⟨sub, n, i, r, m, p, pc, sc, dw⟩
  cases sub <;> simp [stopMonitoring]

theorem startMonitoring_results (s : ServiceState) (o : Option Nat)
    (cfg : MonitoringConfig) : (startMonitoring s o cfg).results = s.results := by
  rcases s with ⟨sub, n, i, r, m, p, pc, sc, dw⟩
  cases sub <;> simp [startMonitoring, stopMonitoring]

theorem startMonitoring_pollingSubscription (s : ServiceState) (o : Option Nat)
    (cfg : MonitoringConfig) :
    (startMonitoring s o cfg).pollingSubscription = some s.nextSubId := by
  rcases s with ⟨sub, n, i, r, m, p, pc, sc, dw⟩
  cases sub <;> simp [startMonitoring, stopMonitoring]

/-- **C10** — neither `stopMonitoring` nor `startMonitoring` touches the
`_results$` history: after a stop and a restart the previously published
measurements are still there unchanged, and the new run's first delivered
measurement is appended after them under the 50-entry bound. -/
theorem stop_start_preserves_results (s : ServiceState) (o : Option Nat)
    (cfg cP cS : MonitoringConfig) (e : ProbeEnv) (ts : Nat) (d : DbEnv) :
    (step s Event.stop).results = s.results ∧
    (step s (Event.start o cfg)).results = s.results ∧
    (step (step s Event.stop) (Event.start o cfg)).results = s.results ∧
    (step (step (step s Event.stop) (Event.start o cfg))
        (Event.tick s.nextSubId cP cS e ts d)).results
      = sliceLast 50 (s.results ++ [measureLatency e ts]) := by
  have hstop : (step s Event.stop).results = s.results := stopMonitoring_results s
  have hstart : ∀ s' : ServiceState, (step s' (Event.start o cfg)).results = s'.results :=
    fun s' => startMonitoring_results s' o cfg
  have hsub : (step (step s Event.stop) (Event.start o cfg)).pollingSubscription
      = some s.nextSubId := by
    have h1 : (step (step s Event.stop) (Event.start o cfg)).pollingSubscription
        = some (step s Event.stop).nextSubId :=
      startMonitoring_pollingSubscription (step s Event.stop) o cfg
    rw [h1]
    exact congrArg some (stopMonitoring_nextSubId s)
  refine ⟨hstop, hstart s, ?_, ?_⟩
  · rw [hstart (step s Event.stop), hstop]
  · rw [step_tick_of_live hsub]
    show pushResult (step (step s Event.stop) (Event.start o cfg)).results _ = _
    rw [hstart (step s Event.stop), hstop]
    rfl

end NetMonitor
